import Mathlib

/-!
Shallow embedding of `bin/samples.py` (qtip), together with theorems that
check the specification's claims about it.

Modelling conventions:

* Python integers are `Int`; a value that may be Python `None` is `Option Int`.
* Read names are modelled as integers: `Dataset.load` parses every column,
  the name column included, with `int_or_none`, so only integer-valued names
  survive persistence; nothing in the claims depends on richer names.
* Optional aligner attributes (`thirdBestScore`, `minValid`, `maxValid`,
  `bestConcordantScore`, `secondBestConcordantScore`) are `Option Int` with
  `none` meaning the attribute is absent (`hasattr` false); an aligner that
  sets one of these attributes sets it to an integer.
* `secondBestScore` is always an attribute (the code reads it unguarded),
  but its value may be Python `None`, hence `Option Int`.
* A CSV file is modelled as its list of token rows (`List (List String)`);
  the comma join/split and the optional gzip transport are invertible and
  carry no logic, so the token level is where every claim lives.
* Python `assert` failures, `AttributeError`, `ValueError` and `TypeError`
  are modelled by `Option`-returning functions, `none` for the exception.
-/

namespace Samples

/-- Python 2 `<=` on int-or-None values: `None` compares below every int. -/
def pyLe : Option Int → Option Int → Bool
  | none, _ => true
  | some _, none => false
  | some a, some b => decide (a ≤ b)

/-- Python 2 `max` of an int-or-None and an int: `None` is below every int. -/
def py2max : Option Int → Int → Option Int
  | none, t => some t
  | some s, t => some (max s t)

/-- Rendering used by `Dataset.save`: `'NA' if x is None else str(x)`. -/
def naStr : Option Int → String
  | none => "NA"
  | some v => toString v

/-- Label rendering used by `Dataset.save`: `NA` when unknown, else `T`/`F`. -/
def labelStr : Option Bool → String
  | none => "NA"
  | some b => if b then "T" else "F"

/-- Decimal digits of an integer token, most significant first; `none` on
the first non-digit character. -/
def parseDigits : Nat → List Char → Option Nat
  | acc, [] => some acc
  | acc, c :: cs =>
    if c.isDigit then parseDigits (acc * 10 + (c.toNat - 48)) cs else none

/-- Python `int(s)` on a token: an optional leading minus followed by at
least one decimal digit. (Python additionally strips whitespace and allows
a leading plus; no token written by `save` uses those forms.) -/
def strToInt (s : String) : Option Int :=
  match s.data with
  | [] => none
  | '-' :: cs =>
    match cs with
    | [] => none
    | _ :: _ => (parseDigits 0 cs).map fun n => -(n : Int)
  | cs => (parseDigits 0 cs).map fun n => (n : Int)

/-- Embeds `int_or_none` from `Dataset.load`: `None if s == 'NA' else int(s)`.
The outer `Option` is the `ValueError` raised by `int` on a bad token. -/
def int_or_none (s : String) : Option (Option Int) :=
  if s = "NA" then some none else (strToInt s).map some

/-- The external alignment object, at the exact interface `samples.py`
reads it (the aligner adapter is out of scope for this core). -/
structure Alignment where
  name : Int
  len : Int
  bestScore : Int
  secondBestScore : Option Int
  mapq : Int
  thirdBestScore : Option Int
  minValid : Option Int
  maxValid : Option Int
  bestConcordantScore : Option Int
  secondBestConcordantScore : Option Int
  concordant : Bool
  discordant : Bool
  paired : Bool
deriving DecidableEq

/-- Embeds `UnpairedTuple`: unpaired training/test record; also used for bad-end
records, distinguished only by a nonzero `ordlen`. Field order follows the
attribute assignments in `UnpairedTuple.__init__`. -/
structure UnpairedTuple where
  rdname : Option Int
  rdlen : Option Int
  ordlen : Option Int
  minv : Option Int
  maxv : Option Int
  bestsc : Option Int
  best2sc : Option Int
  mapq : Option Int
deriving DecidableEq

/-- Embeds `UnpairedTuple.__init__`, parameters in source order; the guard is
`assert minv is None or minv <= bestsc <= maxv` and its failure is `none`. -/
def UnpairedTuple.make (rdname rdlen minv maxv bestsc best2sc mapq ordlen : Option Int) :
    Option UnpairedTuple :=
  if minv.isNone || (pyLe minv bestsc && pyLe bestsc maxv) then
    some ⟨rdname, rdlen, ordlen, minv, maxv, bestsc, best2sc, mapq⟩
  else none

/-- Embeds `UnpairedTuple.__iter__`: the positional field sequence of a record. -/
def UnpairedTuple.fieldList (t : UnpairedTuple) : List (Option Int) :=
  [t.rdname, t.bestsc, t.best2sc, t.minv, t.maxv, t.rdlen, t.mapq, t.ordlen]

/-- Second-best widening in `UnpairedTuple.from_alignment`: take the max
with `thirdBestScore` when that attribute exists. -/
def widenSingle (al : Alignment) : Option Int :=
  match al.thirdBestScore with
  | none => al.secondBestScore
  | some t => py2max al.secondBestScore t

/-- Valid-score bounds in `from_alignment`: `hasattr(al, 'minValid')` guards
the copy and asserts `hasattr(al, 'maxValid')`. -/
def boundsSingle (al : Alignment) : Option (Option Int × Option Int) :=
  match al.minValid with
  | none => some (none, none)
  | some m =>
    match al.maxValid with
    | none => none
    | some mx => some (some m, some mx)

/-- Embeds `UnpairedTuple.from_alignment al ordlen` (the Python default for
`ordlen` is `0`; callers here always pass it explicitly). -/
def UnpairedTuple.from_alignment (al : Alignment) (ordlen : Option Int) :
    Option UnpairedTuple :=
  match boundsSingle al with
  | none => none
  | some (minv, maxv) =>
    UnpairedTuple.make (some al.name) (some al.len) minv maxv (some al.bestScore)
      (widenSingle al) (some al.mapq) ordlen

/-- Embeds `PairedTuple`: one mate's record inside a concordant/discordant pair.
Field order follows the attribute assignments in `PairedTuple.__init__`. -/
structure PairedTuple where
  rdname1 : Option Int
  rdname2 : Option Int
  rdlen1 : Option Int
  rdlen2 : Option Int
  minv1 : Option Int
  minv2 : Option Int
  maxv1 : Option Int
  maxv2 : Option Int
  bestsc1 : Option Int
  bestsc2 : Option Int
  best2sc1 : Option Int
  best2sc2 : Option Int
  mapq1 : Option Int
  mapq2 : Option Int
  bestconcsc : Option Int
  best2concsc : Option Int
  fraglen : Option Int
deriving DecidableEq

/-- Embeds `PairedTuple.__init__`, parameters in source order; the two per-mate
score-bound asserts are the guard, their failure is `none`. -/
def PairedTuple.make (rdname1 rdlen1 minv1 maxv1 bestsc1 best2sc1 mapq1
    rdname2 rdlen2 minv2 maxv2 bestsc2 best2sc2 mapq2
    bestconcsc best2concsc fraglen : Option Int) : Option PairedTuple :=
  if (minv1.isNone || (pyLe minv1 bestsc1 && pyLe bestsc1 maxv1)) &&
     (minv2.isNone || (pyLe minv2 bestsc2 && pyLe bestsc2 maxv2)) then
    some ⟨rdname1, rdname2, rdlen1, rdlen2, minv1, minv2, maxv1, maxv2,
          bestsc1, bestsc2, best2sc1, best2sc2, mapq1, mapq2,
          bestconcsc, best2concsc, fraglen⟩
  else none

/-- Embeds `PairedTuple.__iter__`: the positional field sequence of a record. -/
def PairedTuple.fieldList (p : PairedTuple) : List (Option Int) :=
  [p.rdname1, p.bestsc1, p.best2sc1, p.minv1, p.maxv1, p.rdlen1, p.mapq1,
   p.rdname2, p.bestsc2, p.best2sc2, p.minv2, p.maxv2, p.rdlen2, p.mapq2,
   p.bestconcsc, p.best2concsc, p.fraglen]

/-- Second-best widening in `from_alignments`, gated on mate 1 owning a
`thirdBestScore` attribute; mate 2 must then own one too (assert). -/
def widenPair (al1 al2 : Alignment) : Option (Option Int × Option Int) :=
  match al1.thirdBestScore with
  | none => some (al1.secondBestScore, al2.secondBestScore)
  | some t1 =>
    match al2.thirdBestScore with
    | none => none
    | some t2 => some (py2max al1.secondBestScore t1, py2max al2.secondBestScore t2)

/-- Valid-score bounds in `from_alignments`: gated on
`hasattr(al1, 'minValid')`; inside the branch `al2.minValid`,
`al1.maxValid`, `al2.maxValid` are read unguarded, so an absent attribute
raises (`none`). -/
def boundsPair (al1 al2 : Alignment) :
    Option (Option Int × Option Int × Option Int × Option Int) :=
  match al1.minValid with
  | none => some (none, none, none, none)
  | some m1 =>
    match al2.minValid, al1.maxValid, al2.maxValid with
    | some m2, some mx1, some mx2 => some (some m1, some m2, some mx1, some mx2)
    | _, _, _ => none

/-- Concordant-score block of `from_alignments`: gated on
`hasattr(al1, 'bestConcordantScore')`; asserts the other three attributes
exist and that the two mates agree on both values. -/
def concPair (al1 al2 : Alignment) : Option (Option Int × Option Int) :=
  match al1.bestConcordantScore with
  | none => some (none, none)
  | some b1 =>
    match al2.bestConcordantScore, al1.secondBestConcordantScore,
          al2.secondBestConcordantScore with
    | some b2, some s1, some s2 =>
      if b1 = b2 then (if s1 = s2 then some (some b1, some s1) else none) else none
    | _, _, _ => none

/-- Embeds `PairedTuple.from_alignments al1 al2`. Fragment-length computation is
delegated to the external collaborator `Alignment.fragment_length`, passed
here as the parameter `fl` (the spec keeps it out of scope). -/
def PairedTuple.from_alignments (fl : Alignment → Alignment → Option Int)
    (al1 al2 : Alignment) : Option PairedTuple :=
  match widenPair al1 al2 with
  | none => none
  | some (secbest1, secbest2) =>
    match boundsPair al1 al2 with
    | none => none
    | some (minv1, minv2, maxv1, maxv2) =>
      match concPair al1 al2 with
      | none => none
      | some (bconc, b2conc) =>
        PairedTuple.make (some al1.name) (some al1.len) minv1 maxv1
          (some al1.bestScore) secbest1 (some al1.mapq)
          (some al2.name) (some al2.len) minv2 maxv2
          (some al2.bestScore) secbest2 (some al2.mapq)
          bconc b2conc (fl al1 al2)

example : UnpairedTuple.make (some 1) (some 100) (some 5) (some 10) (some 12)
    (some 3) (some 40) (some 0) = none := by decide

example : (UnpairedTuple.make (some 1) (some 100) (some 5) (some 10) (some 7)
    (some 3) (some 40) (some 0)).isSome := by decide

/-- Header row of the unpaired-shaped files (`_unp`, `_bad_end`): 9 names. -/
def unpHeader : List String :=
  ["name", "best", "secbest", "minv", "maxv", "len", "mapq", "olen", "correct"]

/-- Header row of the paired-shaped files (`_conc`, `_disc`): 18 names. -/
def pairedHeader : List String :=
  ["name1", "best1", "secbest1", "minv1", "maxv1", "len1", "mapq1",
   "name2", "best2", "secbest2", "minv2", "maxv2", "len2", "mapq2",
   "bestconc", "secbestconc", "fraglen", "correct"]

/-- One data row written by `Dataset.save` for an unpaired-shaped record:
the `__iter__` field sequence rendered with `naStr`, then the label. -/
def saveUnpairedRow (t : UnpairedTuple) (correct : Option Bool) : List String :=
  t.fieldList.map naStr ++ [labelStr correct]

/-- One data row written by `Dataset.save` for a paired-shaped record. -/
def savePairedRow (p : PairedTuple) (correct : Option Bool) : List String :=
  p.fieldList.map naStr ++ [labelStr correct]

/-- An unpaired-shaped file as written by `Dataset.save`: a header row
followed by one row per record/label pair (`izip` stops at the shorter). -/
def saveUnpairedFile (data : List UnpairedTuple) (labs : List (Option Bool)) :
    List (List String) :=
  unpHeader :: List.zipWith saveUnpairedRow data labs

/-- A paired-shaped file as written by `Dataset.save`. -/
def savePairedFile (data : List PairedTuple) (labs : List (Option Bool)) :
    List (List String) :=
  pairedHeader :: List.zipWith savePairedRow data labs

/-- One row of an unpaired-shaped file, processed as in `Dataset.load`:
first `assert 8 == len(toks)` (outer `none` on failure), then the header
skip (`some none`), then positional parsing with `int_or_none` and the
`UnpairedTuple` constructor; the label is `toks[-1] == 'T'`. -/
def parseUnpairedRow (toks : List String) :
    Option (Option (UnpairedTuple × Option Bool)) :=
  match toks with
  | [t0, t1, t2, t3, t4, t5, t6, t7] =>
    if t0 = "name" then some none
    else do
      let rdname ← int_or_none t0
      let best ← int_or_none t1
      let secbest ← int_or_none t2
      let minv ← int_or_none t3
      let maxv ← int_or_none t4
      let ln ← int_or_none t5
      let mapq ← int_or_none t6
      let oln ← int_or_none t7
      let r ← UnpairedTuple.make rdname ln minv maxv best secbest mapq oln
      some (some (r, some (t7 == "T")))
  | _ => none

/-- One row of a paired-shaped file, processed as in `Dataset.load`:
`assert 18 == len(toks)`, header skip on `name1`, positional parsing of
`toks[0:17]`, constructor, and label `toks[-1] == 'T'`. -/
def parsePairedRow (toks : List String) :
    Option (Option (PairedTuple × Option Bool)) :=
  match toks with
  | [t0, t1, t2, t3, t4, t5, t6, t7, t8, t9, t10, t11, t12, t13, t14, t15, t16, t17] =>
    if t0 = "name1" then some none
    else
      match int_or_none t0, int_or_none t1, int_or_none t2, int_or_none t3,
            int_or_none t4, int_or_none t5, int_or_none t6 with
      | some rdname1, some best1, some secbest1, some minv1,
        some maxv1, some ln1, some mapq1 =>
        match int_or_none t7, int_or_none t8, int_or_none t9, int_or_none t10,
              int_or_none t11, int_or_none t12, int_or_none t13 with
        | some rdname2, some best2, some secbest2, some minv2,
          some maxv2, some ln2, some mapq2 =>
          match int_or_none t14, int_or_none t15, int_or_none t16 with
          | some bestconc, some secbestconc, some fraglen =>
            match PairedTuple.make rdname1 ln1 minv1 maxv1 best1 secbest1 mapq1
                rdname2 ln2 minv2 maxv2 best2 secbest2 mapq2
                bestconc secbestconc fraglen with
            | some r => some (some (r, some (t17 == "T")))
            | none => none
          | _, _, _ => none
        | _, _, _, _, _, _, _ => none
      | _, _, _, _, _, _, _ => none
  | _ => none

/-- All rows of an unpaired-shaped file, in order; the records and labels
appended by `Dataset.load`, or `none` as soon as any row raises. -/
def loadUnpairedRows : List (List String) →
    Option (List UnpairedTuple × List (Option Bool))
  | [] => some ([], [])
  | toks :: rest =>
    match parseUnpairedRow toks with
    | none => none
    | some none => loadUnpairedRows rest
    | some (some (r, lab)) =>
      match loadUnpairedRows rest with
      | none => none
      | some (rs, ls) => some (r :: rs, lab :: ls)

/-- All rows of a paired-shaped file, in order. -/
def loadPairedRows : List (List String) →
    Option (List PairedTuple × List (Option Bool))
  | [] => some ([], [])
  | toks :: rest =>
    match parsePairedRow toks with
    | none => none
    | some none => loadPairedRows rest
    | some (some (r, lab)) =>
      match loadPairedRows rest with
      | none => none
      | some (rs, ls) => some (r :: rs, lab :: ls)

/-- The four files produced by `Dataset.save` / consumed by `Dataset.load`,
keyed by their name suffixes. -/
structure SavedFiles where
  unp : List (List String)
  conc : List (List String)
  disc : List (List String)
  bad_end : List (List String)
deriving DecidableEq

/-- Embeds `Dataset`: four parallel (records, labels) collections. -/
structure Dataset where
  data_unp : List UnpairedTuple
  lab_unp : List (Option Bool)
  data_conc : List PairedTuple
  lab_conc : List (Option Bool)
  data_disc : List PairedTuple
  lab_disc : List (Option Bool)
  data_bad_end : List UnpairedTuple
  lab_bad_end : List (Option Bool)
deriving DecidableEq

/-- Embeds `Dataset.__init__`: all eight lists empty. -/
def Dataset.new : Dataset := ⟨[], [], [], [], [], [], [], []⟩

/-- Embeds `Dataset.add_unpaired al correct`. -/
def Dataset.add_unpaired (ds : Dataset) (al : Alignment) (correct : Option Bool) :
    Option Dataset :=
  match UnpairedTuple.from_alignment al (some 0) with
  | none => none
  | some r => some { ds with data_unp := ds.data_unp ++ [r],
                             lab_unp := ds.lab_unp ++ [correct] }

/-- Embeds `Dataset.add_bad_end al unaligned correct`: the unaligned mate enters
only through `len(unaligned.seq)`, passed here as `unalignedLen`. -/
def Dataset.add_bad_end (ds : Dataset) (al : Alignment) (unalignedLen : Int)
    (correct : Option Bool) : Option Dataset :=
  if al.paired then
    match UnpairedTuple.from_alignment al (some unalignedLen) with
    | none => none
    | some r => some { ds with data_bad_end := ds.data_bad_end ++ [r],
                               lab_bad_end := ds.lab_bad_end ++ [correct] }
  else none

/-- Embeds `Dataset.add_concordant al1 al2 correct1 correct2`: asserts both flags,
derives one record per mate (each as mate 1), appends both records and
then both labels. -/
def Dataset.add_concordant (fl : Alignment → Alignment → Option Int)
    (ds : Dataset) (al1 al2 : Alignment) (correct1 correct2 : Option Bool) :
    Option Dataset :=
  if al1.concordant && al2.concordant then
    match PairedTuple.from_alignments fl al1 al2,
          PairedTuple.from_alignments fl al2 al1 with
    | some rec1, some rec2 =>
      some { ds with data_conc := ds.data_conc ++ [rec1, rec2],
                     lab_conc := ds.lab_conc ++ [correct1, correct2] }
    | _, _ => none
  else none

/-- Embeds `Dataset.add_discordant al1 al2 correct1 correct2`. -/
def Dataset.add_discordant (fl : Alignment → Alignment → Option Int)
    (ds : Dataset) (al1 al2 : Alignment) (correct1 correct2 : Option Bool) :
    Option Dataset :=
  if al1.discordant && al2.discordant then
    match PairedTuple.from_alignments fl al1 al2,
          PairedTuple.from_alignments fl al2 al1 with
    | some rec1, some rec2 =>
      some { ds with data_disc := ds.data_disc ++ [rec1, rec2],
                     lab_disc := ds.lab_disc ++ [correct1, correct2] }
    | _, _ => none
  else none

/-- Embeds `Dataset.save ds compress`: one file per collection. The `compress`
flag selects the gzip transport and the `.gz` file name; it does not change
the token content, which is all this embedding keeps. -/
def Dataset.save (ds : Dataset) (_compress : Bool) : SavedFiles :=
  { unp := saveUnpairedFile ds.data_unp ds.lab_unp,
    conc := savePairedFile ds.data_conc ds.lab_conc,
    disc := savePairedFile ds.data_disc ds.lab_disc,
    bad_end := saveUnpairedFile ds.data_bad_end ds.lab_bad_end }

/-- Embeds `Dataset.load ds files`: parses the four files and appends their rows
to the corresponding collections of `ds` (the Python code appends into the
live lists; on any raise the partial state is declared unusable by the
spec, so only the success result is modelled). -/
def Dataset.load (ds : Dataset) (files : SavedFiles) : Option Dataset :=
  match loadUnpairedRows files.unp with
  | none => none
  | some (u, lu) =>
    match loadPairedRows files.conc with
    | none => none
    | some (c, lc) =>
      match loadPairedRows files.disc with
      | none => none
      | some (d, ld) =>
        match loadUnpairedRows files.bad_end with
        | none => none
        | some (b, lb) =>
          some { data_unp := ds.data_unp ++ u, lab_unp := ds.lab_unp ++ lu,
                 data_conc := ds.data_conc ++ c, lab_conc := ds.lab_conc ++ lc,
                 data_disc := ds.data_disc ++ d, lab_disc := ds.lab_disc ++ ld,
                 data_bad_end := ds.data_bad_end ++ b,
                 lab_bad_end := ds.lab_bad_end ++ lb }

/-- A cell of an exported table: a numeric column entry or a label entry. -/
inductive Cell where
  | num : Option Int → Cell
  | flag : Option Bool → Cell
deriving DecidableEq

/-- An exported table: named columns, as built by `DataFrame.from_items`. -/
abbrev DataFrame : Type := List (String × List Cell)

/-- Embeds `UnpairedTuple.to_data_frame`: the source's `from_items` argument is
`[('name', names) ('best1', best1), ...]` — a missing comma makes it a call
of the tuple `('name', names)`, so the function raises `TypeError` on every
input before any table is built. -/
def UnpairedTuple.to_data_frame (_ptups : List UnpairedTuple)
    (_cor : Option (List (Option Bool))) : Option DataFrame :=
  none

/-- Column names in the `from_items` list of `UnpairedTuple.to_data_frame`
as they appear in the source (the call itself raises, see above). -/
def unpItemCols : List String :=
  ["name", "best1", "best2", "minv", "maxv", "rdlen", "mapq", "ordlen"]

/-- Embeds `PairedTuple.to_data_frames`: pivots the records into the named columns
of `from_items` (the per-field accumulation of `PairedTuple.columnize` is
the per-field map), then adds a `correct` column when labels are given. -/
def PairedTuple.to_data_frames (ptups : List PairedTuple)
    (cor : Option (List (Option Bool))) : DataFrame :=
  let base : DataFrame :=
    [("name_1", ptups.map fun p => Cell.num p.rdname1),
     ("best1_1", ptups.map fun p => Cell.num p.bestsc1),
     ("best2_1", ptups.map fun p => Cell.num p.best2sc1),
     ("minv_1", ptups.map fun p => Cell.num p.minv1),
     ("maxv_1", ptups.map fun p => Cell.num p.maxv1),
     ("rdlen_1", ptups.map fun p => Cell.num p.rdlen1),
     ("mapq_1", ptups.map fun p => Cell.num p.mapq1),
     ("name_2", ptups.map fun p => Cell.num p.rdname2),
     ("best1_2", ptups.map fun p => Cell.num p.bestsc2),
     ("best2_2", ptups.map fun p => Cell.num p.best2sc2),
     ("minv_2", ptups.map fun p => Cell.num p.minv2),
     ("maxv_2", ptups.map fun p => Cell.num p.maxv2),
     ("rdlen_2", ptups.map fun p => Cell.num p.rdlen2),
     ("mapq_2", ptups.map fun p => Cell.num p.mapq2),
     ("best1conc", ptups.map fun p => Cell.num p.bestconcsc),
     ("best2conc", ptups.map fun p => Cell.num p.best2concsc),
     ("fraglen", ptups.map fun p => Cell.num p.fraglen)]
  match cor with
  | none => base
  | some labs => base ++ [("correct", labs.map Cell.flag)]

/-- Embeds `Dataset.to_data_frames`: calls `UnpairedTuple.to_data_frame` on the
unpaired collection (which raises, see above); were that repaired, the
bad-end branch calls `UnpairedTuple.to_data_frames`, a method that does not
exist (`AttributeError`). Either way the call raises for every dataset. -/
def Dataset.to_data_frames (ds : Dataset) :
    Option (DataFrame × DataFrame × DataFrame × DataFrame) :=
  match UnpairedTuple.to_data_frame ds.data_unp (some ds.lab_unp) with
  | none => none
  | some _df_unp =>
    let _df_conc := PairedTuple.to_data_frames ds.data_conc (some ds.lab_conc)
    let _df_disc := PairedTuple.to_data_frames ds.data_disc (some ds.lab_disc)
    none

/-- Inversion for the `UnpairedTuple` constructor: a successful call
returns exactly its arguments, laid out as `__init__` assigns them. -/
lemma unpaired_make_inv
    {rdname rdlen minv maxv bestsc best2sc mapq ordlen : Option Int}
    {r : UnpairedTuple}
    (h : UnpairedTuple.make rdname rdlen minv maxv bestsc best2sc mapq ordlen = some r) :
    r = ⟨rdname, rdlen, ordlen, minv, maxv, bestsc, best2sc, mapq⟩ := by
  unfold UnpairedTuple.make at h
  split at h
  · exact (Option.some_inj.mp h).symm
  · cases h

/-- Inversion for the `PairedTuple` constructor. -/
lemma paired_make_inv
    {rdname1 rdlen1 minv1 maxv1 bestsc1 best2sc1 mapq1
     rdname2 rdlen2 minv2 maxv2 bestsc2 best2sc2 mapq2
     bestconcsc best2concsc fraglen : Option Int} {r : PairedTuple}
    (h : PairedTuple.make rdname1 rdlen1 minv1 maxv1 bestsc1 best2sc1 mapq1
      rdname2 rdlen2 minv2 maxv2 bestsc2 best2sc2 mapq2
      bestconcsc best2concsc fraglen = some r) :
    r = ⟨rdname1, rdname2, rdlen1, rdlen2, minv1, minv2, maxv1, maxv2,
         bestsc1, bestsc2, best2sc1, best2sc2, mapq1, mapq2,
         bestconcsc, best2concsc, fraglen⟩ := by
  unfold PairedTuple.make at h
  split at h
  · exact (Option.some_inj.mp h).symm
  · cases h

/-- A row of the wrong width fails the `assert 8 == len(toks)`. -/
lemma parseUnpairedRow_length_ne {toks : List String} (h : toks.length ≠ 8) :
    parseUnpairedRow toks = none := by
  rcases toks with _ | ⟨a0, _ | ⟨a1, _ | ⟨a2, _ | ⟨a3, _ | ⟨a4, _ | ⟨a5, _ |
    ⟨a6, _ | ⟨a7, _ | ⟨a8, rest⟩⟩⟩⟩⟩⟩⟩⟩⟩ <;> first | rfl | simp at h

/-- A row of the wrong width fails the `assert 18 == len(toks)`. -/
lemma parsePairedRow_length_ne {toks : List String} (h : toks.length ≠ 18) :
    parsePairedRow toks = none := by
  rcases toks with _ | ⟨a0, _ | ⟨a1, _ | ⟨a2, _ | ⟨a3, _ | ⟨a4, _ | ⟨a5, _ |
    ⟨a6, _ | ⟨a7, _ | ⟨a8, _ | ⟨a9, _ | ⟨a10, _ | ⟨a11, _ | ⟨a12, _ | ⟨a13, _ |
    ⟨a14, _ | ⟨a15, _ | ⟨a16, _ | ⟨a17, _ | ⟨a18, rest⟩⟩⟩⟩⟩⟩⟩⟩⟩⟩⟩⟩⟩⟩⟩⟩⟩⟩⟩ <;>
    first | rfl | simp at h

/-- If any row of an unpaired-shaped file raises, the whole file load does. -/
lemma loadUnpairedRows_eq_none {rows : List (List String)} {toks : List String}
    (hm : toks ∈ rows) (hp : parseUnpairedRow toks = none) :
    loadUnpairedRows rows = none := by
  induction rows with
  | nil => cases hm
  | cons hd tl ih =>
    rcases List.mem_cons.mp hm with h | h
    · subst h
      unfold loadUnpairedRows
      rw [hp]
    · unfold loadUnpairedRows
      rcases hph : parseUnpairedRow hd with _ | (_ | ⟨r, lab⟩)
      · rfl
      · exact ih h
      · rw [ih h]

/-- If any row of a paired-shaped file raises, the whole file load does. -/
lemma loadPairedRows_eq_none {rows : List (List String)} {toks : List String}
    (hm : toks ∈ rows) (hp : parsePairedRow toks = none) :
    loadPairedRows rows = none := by
  induction rows with
  | nil => cases hm
  | cons hd tl ih =>
    rcases List.mem_cons.mp hm with h | h
    · subst h
      unfold loadPairedRows
      rw [hp]
    · unfold loadPairedRows
      rcases hph : parsePairedRow hd with _ | (_ | ⟨r, lab⟩)
      · rfl
      · exact ih h
      · rw [ih h]

/-- Field order for `UnpairedTuple.__iter__` as the spec states it (name,
read length, min, max, best, second-best, mapping quality, opposite-end
length); written from the spec's words, to be compared with `fieldList`. -/
def specIterOrder (t : UnpairedTuple) : List (Option Int) :=
  [t.rdname, t.rdlen, t.minv, t.maxv, t.bestsc, t.best2sc, t.mapq, t.ordlen]

/-- A concrete record with pairwise-distinct field values. -/
def exT : UnpairedTuple :=
  { rdname := some 10, rdlen := some 100, ordlen := some 0, minv := some 1,
    maxv := some 9, bestsc := some 8, best2sc := some 7, mapq := some 30 }

/-- A concrete fragment-length collaborator for the example alignments. -/
def flConst : Alignment → Alignment → Option Int := fun _ _ => some 250

/-- A concrete concordant alignment exposing every optional attribute. -/
def exA1 : Alignment :=
  { name := 1, len := 100, bestScore := 10, secondBestScore := some 5,
    mapq := 40, thirdBestScore := none, minValid := some 0, maxValid := some 20,
    bestConcordantScore := some 18, secondBestConcordantScore := some 15,
    concordant := true, discordant := false, paired := true }

/-- A second concrete concordant alignment, the mate of `exA1`. -/
def exA2 : Alignment :=
  { name := 2, len := 90, bestScore := 9, secondBestScore := some 4,
    mapq := 35, thirdBestScore := none, minValid := some 1, maxValid := some 19,
    bestConcordantScore := some 18, secondBestConcordantScore := some 15,
    concordant := true, discordant := false, paired := true }

/-- C1. The claim says save followed by load round-trips every Dataset
whose records have no absent numeric fields and boolean labels. In the
code this never happens: `save` writes 9-token rows for the unpaired-shaped
files (8 fields plus the label, and a 9-name header), while `load` runs
`assert 8 == len(toks)` on every row of those files before its header
skip, so `load` raises on the very first row of `_unp.csv` of any saved
dataset. This theorem evaluates the code at the failing input: loading any
saved dataset into any dataset fails, the empty dataset included. -/
theorem C1_saved_datasets_never_load :
    ∀ (ds0 ds : Dataset) (compress : Bool),
      Dataset.load ds0 (Dataset.save ds compress) = none :=
  fun _ _ _ => rfl

/-- C2 counterexample: the spec's field order (name, read length, min, max,
best, second-best, mapping quality, opposite-end length) differs from the
order `__iter__` actually yields on a concrete record. -/
theorem C2_counterexample : UnpairedTuple.fieldList exT ≠ specIterOrder exT := by
  decide

/-- C2 amended: iterating an `UnpairedTuple` yields name, best score,
second-best score, min valid score, max valid score, read length, mapping
quality, opposite-end length — and this is exactly the positional layout
`save` writes before the label column. -/
theorem C2_iter_order :
    ∀ t : UnpairedTuple,
      t.fieldList = [t.rdname, t.bestsc, t.best2sc, t.minv, t.maxv,
        t.rdlen, t.mapq, t.ordlen] ∧
      ∀ lab, saveUnpairedRow t lab =
        [naStr t.rdname, naStr t.bestsc, naStr t.best2sc, naStr t.minv,
         naStr t.maxv, naStr t.rdlen, naStr t.mapq, naStr t.ordlen,
         labelStr lab] :=
  fun _ => ⟨rfl, fun _ => rfl⟩

/-- C3 counterexample: the claim says a 9-token unpaired-shaped data row
and a 17-token paired-shaped data row are accepted; the code rejects both
(it demands 8 and 18 tokens respectively). The 9-token row here is exactly
what `save` writes for a record with label `T`. -/
theorem C3_counterexample :
    parseUnpairedRow ["7", "42", "30", "0", "50", "100", "37", "0", "T"] = none ∧
    parsePairedRow ["1", "10", "5", "0", "20", "100", "40", "2", "9", "4", "1",
      "19", "90", "35", "18", "15", "250"] = none :=
  ⟨rfl, rfl⟩

/-- C3 amended: during load a row of an unpaired-shaped file can be
accepted only when it has 8 tokens and a row of a paired-shaped file only
when it has 18; a row of any other width makes the row parse — and with it
the whole `load` — fail. (Note `save` writes 9- and 18-token rows, so the
8-token unpaired width also contradicts `save`; that defect is C1.) -/
theorem C3_row_width :
    (∀ toks : List String, toks.length ≠ 8 → parseUnpairedRow toks = none) ∧
    (∀ (toks : List String) x, parseUnpairedRow toks = some x → toks.length = 8) ∧
    (∀ toks : List String, toks.length ≠ 18 → parsePairedRow toks = none) ∧
    (∀ (toks : List String) x, parsePairedRow toks = some x → toks.length = 18) ∧
    (∀ (ds : Dataset) (files : SavedFiles) (toks : List String),
      toks ∈ files.unp → toks.length ≠ 8 → Dataset.load ds files = none) ∧
    (∀ (ds : Dataset) (files : SavedFiles) (toks : List String),
      toks ∈ files.conc → toks.length ≠ 18 → Dataset.load ds files = none) := by
  refine ⟨fun toks h => parseUnpairedRow_length_ne h, ?_,
    fun toks h => parsePairedRow_length_ne h, ?_, ?_, ?_⟩
  · intro toks x hx
    by_contra h
    rw [parseUnpairedRow_length_ne h] at hx
    cases hx
  · intro toks x hx
    by_contra h
    rw [parsePairedRow_length_ne h] at hx
    cases hx
  · intro ds files toks hm hl
    have h := loadUnpairedRows_eq_none hm (parseUnpairedRow_length_ne hl)
    unfold Dataset.load
    rw [h]
  · intro ds files toks hm hl
    have h := loadPairedRows_eq_none hm (parsePairedRow_length_ne hl)
    unfold Dataset.load
    rcases h1 : loadUnpairedRows files.unp with _ | ⟨u, lu⟩
    · rfl
    · rw [h]

/-- C3 witness: a concrete 2-token row is rejected by both row parsers. -/
theorem C3_row_width_witness :
    (["x", "y"] : List String).length ≠ 8 ∧ parseUnpairedRow ["x", "y"] = none ∧
    (["x", "y"] : List String).length ≠ 18 ∧ parsePairedRow ["x", "y"] = none :=
  ⟨by decide, C3_row_width.1 ["x", "y"] (by decide), by decide,
   C3_row_width.2.2.1 ["x", "y"] (by decide)⟩

/-- C4. Constructing an `UnpairedTuple` or `PairedTuple` with present score
bounds succeeds exactly when `min_valid_score ≤ best_score ≤
max_valid_score` (independently per mate for a `PairedTuple`), and always
succeeds when the bounds are absent. -/
theorem C4_score_bound_invariant :
    (∀ rdname rdlen b2 q o : Option Int, ∀ m mx b : Int,
      (UnpairedTuple.make rdname rdlen (some m) (some mx) (some b) b2 q o).isSome ↔
        (m ≤ b ∧ b ≤ mx)) ∧
    (∀ rdname rdlen b b2 q o : Option Int,
      (UnpairedTuple.make rdname rdlen none none b b2 q o).isSome) ∧
    (∀ n1 l1 b2a q1 n2 l2 b2b q2 bc b2c fr : Option Int, ∀ m1 mx1 b1 m2 mx2 b2 : Int,
      (PairedTuple.make n1 l1 (some m1) (some mx1) (some b1) b2a q1
        n2 l2 (some m2) (some mx2) (some b2) b2b q2 bc b2c fr).isSome ↔
        ((m1 ≤ b1 ∧ b1 ≤ mx1) ∧ (m2 ≤ b2 ∧ b2 ≤ mx2))) ∧
    (∀ n1 l1 b1 b2a q1 n2 l2 b2 b2b q2 bc b2c fr : Option Int,
      (PairedTuple.make n1 l1 none none b1 b2a q1
        n2 l2 none none b2 b2b q2 bc b2c fr).isSome) := by
  refine ⟨?_, ?_, ?_, ?_⟩
  · intro rdname rdlen b2 q o m mx b
    simp [UnpairedTuple.make, pyLe, apply_ite Option.isSome]
  · intro rdname rdlen b b2 q o
    simp [UnpairedTuple.make]
  · intro n1 l1 b2a q1 n2 l2 b2b q2 bc b2c fr m1 mx1 b1 m2 mx2 b2
    simp [PairedTuple.make, pyLe, apply_ite Option.isSome]
  · intro n1 l1 b1 b2a q1 n2 l2 b2 b2b q2 bc b2c fr
    simp [PairedTuple.make]

/-- Inversion for `UnpairedTuple.from_alignment`: a successful call fixes
every field of the produced record. -/
lemma UnpairedTuple.from_alignment_inv {al : Alignment} {o : Option Int}
    {r : UnpairedTuple} (h : UnpairedTuple.from_alignment al o = some r) :
    ∃ mv mx, boundsSingle al = some (mv, mx) ∧
      r = ⟨some al.name, some al.len, o, mv, mx, some al.bestScore,
           widenSingle al, some al.mapq⟩ := by
  unfold UnpairedTuple.from_alignment at h
  rcases hb : boundsSingle al with _ | ⟨mv, mx⟩
  · rw [hb] at h
    cases h
  · rw [hb] at h
    exact ⟨mv, mx, rfl, unpaired_make_inv h⟩

/-- Inversion for `PairedTuple.from_alignments`: a successful call fixes
every field of the produced record in terms of its three blocks. -/
lemma PairedTuple.from_alignments_inv {fl : Alignment → Alignment → Option Int}
    {al1 al2 : Alignment} {r : PairedTuple}
    (h : PairedTuple.from_alignments fl al1 al2 = some r) :
    ∃ s1 s2 m1 m2 mx1 mx2 bc b2c,
      widenPair al1 al2 = some (s1, s2) ∧
      boundsPair al1 al2 = some (m1, m2, mx1, mx2) ∧
      concPair al1 al2 = some (bc, b2c) ∧
      r = ⟨some al1.name, some al2.name, some al1.len, some al2.len,
           m1, m2, mx1, mx2, some al1.bestScore, some al2.bestScore,
           s1, s2, some al1.mapq, some al2.mapq, bc, b2c, fl al1 al2⟩ := by
  unfold PairedTuple.from_alignments at h
  rcases hw : widenPair al1 al2 with _ | ⟨s1, s2⟩
  · rw [hw] at h
    cases h
  · rw [hw] at h
    rcases hb : boundsPair al1 al2 with _ | ⟨m1, m2, mx1, mx2⟩
    · rw [hb] at h
      cases h
    · rw [hb] at h
      rcases hc : concPair al1 al2 with _ | ⟨bc, b2c⟩
      · rw [hc] at h
        cases h
      · rw [hc] at h
        exact ⟨s1, s2, m1, m2, mx1, mx2, bc, b2c, rfl, rfl, rfl,
          paired_make_inv h⟩

/-- If the concordant-score block raises, `from_alignments` raises. -/
lemma PairedTuple.from_alignments_none_of_concPair {fl : Alignment → Alignment → Option Int}
    {al1 al2 : Alignment} (h : concPair al1 al2 = none) :
    PairedTuple.from_alignments fl al1 al2 = none := by
  unfold PairedTuple.from_alignments
  rcases hw : widenPair al1 al2 with _ | ⟨s1, s2⟩
  · rfl
  · rcases hb : boundsPair al1 al2 with _ | ⟨m1, m2, mx1, mx2⟩
    · rfl
    · rw [h]

/-- If the widening block raises, `from_alignments` raises. -/
lemma PairedTuple.from_alignments_none_of_widenPair {fl : Alignment → Alignment → Option Int}
    {al1 al2 : Alignment} (h : widenPair al1 al2 = none) :
    PairedTuple.from_alignments fl al1 al2 = none := by
  unfold PairedTuple.from_alignments
  rw [h]

/-- The concordant block fails when the two mates disagree on the best
concordant score. -/
lemma concPair_none_of_best_ne {al1 al2 : Alignment} {x y : Int}
    (h1 : al1.bestConcordantScore = some x) (h2 : al2.bestConcordantScore = some y)
    (hxy : x ≠ y) : concPair al1 al2 = none := by
  unfold concPair
  rw [h1, h2]
  cases al1.secondBestConcordantScore <;> cases al2.secondBestConcordantScore <;>
    simp [hxy]

/-- The concordant block fails when the two mates disagree on the
second-best concordant score. -/
lemma concPair_none_of_secbest_ne {al1 al2 : Alignment} {x u v : Int}
    (h1 : al1.bestConcordantScore = some x) (h2 : al2.bestConcordantScore = some x)
    (h3 : al1.secondBestConcordantScore = some u)
    (h4 : al2.secondBestConcordantScore = some v)
    (huv : u ≠ v) : concPair al1 al2 = none := by
  unfold concPair
  rw [h1, h2, h3, h4]
  simp [huv]

/-- On success the concordant fields are populated exactly when all four
concordant attributes exist on the two mates. -/
lemma concPair_some_iff {al1 al2 : Alignment} {bc b2c : Option Int}
    (h : concPair al1 al2 = some (bc, b2c)) :
    (bc.isSome = true ↔
      (al1.bestConcordantScore.isSome = true ∧ al2.bestConcordantScore.isSome = true ∧
       al1.secondBestConcordantScore.isSome = true ∧
       al2.secondBestConcordantScore.isSome = true)) ∧
    (b2c.isSome = true ↔
      (al1.bestConcordantScore.isSome = true ∧ al2.bestConcordantScore.isSome = true ∧
       al1.secondBestConcordantScore.isSome = true ∧
       al2.secondBestConcordantScore.isSome = true)) := by
  rcases hb1 : al1.bestConcordantScore with _ | b1 <;>
    rcases hb2 : al2.bestConcordantScore with _ | b2 <;>
      rcases hs1 : al1.secondBestConcordantScore with _ | s1 <;>
        rcases hs2 : al2.secondBestConcordantScore with _ | s2 <;>
          simp only [concPair, hb1, hb2, hs1, hs2] at h
  all_goals try (split at h)
  all_goals try (split at h)
  all_goals simp_all
  all_goals (obtain ⟨hx, hy⟩ := h
             simp [← hx, ← hy])

/-- An alignment whose aligner reports no third-best score. -/
def exNoThird : Alignment :=
  { name := 1, len := 100, bestScore := 10, secondBestScore := some 5,
    mapq := 40, thirdBestScore := none, minValid := none, maxValid := none,
    bestConcordantScore := none, secondBestConcordantScore := none,
    concordant := true, discordant := false, paired := true }

/-- An alignment reporting second-best 7 and third-best 9. -/
def exWithThird : Alignment :=
  { name := 2, len := 90, bestScore := 10, secondBestScore := some 7,
    mapq := 35, thirdBestScore := some 9, minValid := none, maxValid := none,
    bestConcordantScore := none, secondBestConcordantScore := none,
    concordant := true, discordant := false, paired := true }

/-- C5 counterexample: in `from_alignments`, mate 2 reports second-best 7
and third-best 9, but because mate 1 reports no third-best score the
derived record keeps `best2sc2 = 7` instead of the claimed
`max 7 9 = 9`. -/
theorem C5_counterexample :
    exWithThird.secondBestScore = some 7 ∧ exWithThird.thirdBestScore = some 9 ∧
    (PairedTuple.from_alignments flConst exNoThird exWithThird).map
      PairedTuple.best2sc2 = some (some 7) ∧
    (PairedTuple.from_alignments flConst exNoThird exWithThird).map
      PairedTuple.best2sc2 ≠ some (some (max 7 9)) := by
  refine ⟨rfl, rfl, rfl, ?_⟩
  decide

/-- C5 amended: `from_alignment` widens the second-best score to
`max secondBest thirdBest` whenever that alignment reports a third-best
score (and keeps the reported second-best otherwise); in `from_alignments`
the widening of BOTH mates is gated on the first argument (mate 1): when
mate 1 reports a third-best score both mates are widened and mate 2 must
also report one or the call fails, and when mate 1 does not report one,
neither mate is widened even if mate 2 reports a third-best score. -/
theorem C5_second_best_widening :
    (∀ (al : Alignment) (o : Option Int) (r : UnpairedTuple) (s t : Int),
      al.secondBestScore = some s → al.thirdBestScore = some t →
      UnpairedTuple.from_alignment al o = some r → r.best2sc = some (max s t)) ∧
    (∀ (al : Alignment) (o : Option Int) (r : UnpairedTuple),
      al.thirdBestScore = none →
      UnpairedTuple.from_alignment al o = some r → r.best2sc = al.secondBestScore) ∧
    (∀ (fl : Alignment → Alignment → Option Int) (al1 al2 : Alignment)
       (r : PairedTuple) (s1 t1 s2 t2 : Int),
      al1.secondBestScore = some s1 → al1.thirdBestScore = some t1 →
      al2.secondBestScore = some s2 → al2.thirdBestScore = some t2 →
      PairedTuple.from_alignments fl al1 al2 = some r →
      r.best2sc1 = some (max s1 t1) ∧ r.best2sc2 = some (max s2 t2)) ∧
    (∀ (fl : Alignment → Alignment → Option Int) (al1 al2 : Alignment)
       (r : PairedTuple),
      al1.thirdBestScore = none →
      PairedTuple.from_alignments fl al1 al2 = some r →
      r.best2sc1 = al1.secondBestScore ∧ r.best2sc2 = al2.secondBestScore) ∧
    (∀ (fl : Alignment → Alignment → Option Int) (al1 al2 : Alignment) (t1 : Int),
      al1.thirdBestScore = some t1 → al2.thirdBestScore = none →
      PairedTuple.from_alignments fl al1 al2 = none) := by
  refine ⟨?_, ?_, ?_, ?_, ?_⟩
  · intro al o r s t hs ht h
    obtain ⟨mv, mx, _, hr⟩ := UnpairedTuple.from_alignment_inv h
    subst hr
    show widenSingle al = some (max s t)
    unfold widenSingle
    rw [ht, hs]
    rfl
  · intro al o r ht h
    obtain ⟨mv, mx, _, hr⟩ := UnpairedTuple.from_alignment_inv h
    subst hr
    show widenSingle al = al.secondBestScore
    unfold widenSingle
    rw [ht]
  · intro fl al1 al2 r s1 t1 s2 t2 hs1 ht1 hs2 ht2 h
    obtain ⟨w1, w2, m1, m2, mx1, mx2, bc, b2c, hw, _, _, hr⟩ :=
      PairedTuple.from_alignments_inv h
    subst hr
    unfold widenPair at hw
    rw [ht1, ht2, hs1, hs2] at hw
    injection hw with hw'
    injection hw' with hw1 hw2
    exact ⟨hw1.symm, hw2.symm⟩
  · intro fl al1 al2 r ht1 h
    obtain ⟨w1, w2, m1, m2, mx1, mx2, bc, b2c, hw, _, _, hr⟩ :=
      PairedTuple.from_alignments_inv h
    subst hr
    unfold widenPair at hw
    rw [ht1] at hw
    injection hw with hw'
    injection hw' with hw1 hw2
    exact ⟨hw1.symm, hw2.symm⟩
  · intro fl al1 al2 t1 ht1 ht2
    apply PairedTuple.from_alignments_none_of_widenPair
    unfold widenPair
    rw [ht1, ht2]

/-- C5 witness: an alignment reporting second-best 7 and third-best 9
derives `second_best_score = 9` through `from_alignment`, and through
`from_alignments` when it is mate 1. -/
theorem C5_second_best_widening_witness :
    exWithThird.secondBestScore = some 7 ∧ exWithThird.thirdBestScore = some 9 ∧
    UnpairedTuple.from_alignment exWithThird (some 0) =
      some ⟨some 2, some 90, some 0, none, none, some 10, some 9, some 35⟩ ∧
    (⟨some 2, some 90, some 0, none, none, some 10, some 9, some 35⟩ :
      UnpairedTuple).best2sc = some (max 7 9) := by
  refine ⟨rfl, rfl, by decide, ?_⟩
  exact C5_second_best_widening.1 exWithThird (some 0)
    ⟨some 2, some 90, some 0, none, none, some 10, some 9, some 35⟩ 7 9 rfl rfl
    (by decide)

/-- Record derived from `(exA1, exA2)` by `from_alignments`. -/
def exR1 : PairedTuple :=
  { rdname1 := some 1, rdname2 := some 2, rdlen1 := some 100, rdlen2 := some 90,
    minv1 := some 0, minv2 := some 1, maxv1 := some 20, maxv2 := some 19,
    bestsc1 := some 10, bestsc2 := some 9, best2sc1 := some 5, best2sc2 := some 4,
    mapq1 := some 40, mapq2 := some 35, bestconcsc := some 18,
    best2concsc := some 15, fraglen := some 250 }

/-- Record derived from `(exA2, exA1)` by `from_alignments`. -/
def exR2 : PairedTuple :=
  { rdname1 := some 2, rdname2 := some 1, rdlen1 := some 90, rdlen2 := some 100,
    minv1 := some 1, minv2 := some 0, maxv1 := some 19, maxv2 := some 20,
    bestsc1 := some 9, bestsc2 := some 10, best2sc1 := some 4, best2sc2 := some 5,
    mapq1 := some 35, mapq2 := some 40, bestconcsc := some 18,
    best2concsc := some 15, fraglen := some 250 }

/-- C6. `add_concordant al1 al2 c1 c2` appends exactly the two records
`from_alignments al1 al2` then `from_alignments al2 al1` to the concordant
collection and the labels `[c1, c2]` in that order; record 1's mate-1
fields carry `al1`'s data and record 2's mate-1 fields carry `al2`'s. -/
theorem C6_add_concordant :
    ∀ (fl : Alignment → Alignment → Option Int) (ds : Dataset)
      (al1 al2 : Alignment) (c1 c2 : Option Bool) (r1 r2 : PairedTuple),
      al1.concordant = true → al2.concordant = true →
      PairedTuple.from_alignments fl al1 al2 = some r1 →
      PairedTuple.from_alignments fl al2 al1 = some r2 →
      Dataset.add_concordant fl ds al1 al2 c1 c2 = some
        { ds with data_conc := ds.data_conc ++ [r1, r2],
                  lab_conc := ds.lab_conc ++ [c1, c2] } ∧
      r1.rdname1 = some al1.name ∧ r1.rdlen1 = some al1.len ∧
      r1.bestsc1 = some al1.bestScore ∧ r1.mapq1 = some al1.mapq ∧
      r2.rdname1 = some al2.name ∧ r2.rdlen1 = some al2.len ∧
      r2.bestsc1 = some al2.bestScore ∧ r2.mapq1 = some al2.mapq := by
  intro fl ds al1 al2 c1 c2 r1 r2 hc1 hc2 hf1 hf2
  obtain ⟨s1, s2, m1, m2, mx1, mx2, bc, b2c, _, _, _, hr1⟩ :=
    PairedTuple.from_alignments_inv hf1
  obtain ⟨s1b, s2b, m1b, m2b, mx1b, mx2b, bcb, b2cb, _, _, _, hr2⟩ :=
    PairedTuple.from_alignments_inv hf2
  refine ⟨?_, ?_, ?_, ?_, ?_, ?_, ?_, ?_, ?_⟩
  · unfold Dataset.add_concordant
    rw [hc1, hc2, hf1, hf2]
    rfl
  all_goals subst hr1
  all_goals try subst hr2
  all_goals rfl

/-- C6 witness: the concrete concordant pair `(exA1, exA2)` with labels
true and false appends `[exR1, exR2]` and `[some true, some false]`. -/
theorem C6_add_concordant_witness :
    exA1.concordant = true ∧ exA2.concordant = true ∧
    PairedTuple.from_alignments flConst exA1 exA2 = some exR1 ∧
    PairedTuple.from_alignments flConst exA2 exA1 = some exR2 ∧
    (Dataset.add_concordant flConst Dataset.new exA1 exA2 (some true) (some false) =
      some { Dataset.new with
             data_conc := Dataset.new.data_conc ++ [exR1, exR2],
             lab_conc := Dataset.new.lab_conc ++ [some true, some false] } ∧
     exR1.rdname1 = some exA1.name ∧ exR1.rdlen1 = some exA1.len ∧
     exR1.bestsc1 = some exA1.bestScore ∧ exR1.mapq1 = some exA1.mapq ∧
     exR2.rdname1 = some exA2.name ∧ exR2.rdlen1 = some exA2.len ∧
     exR2.bestsc1 = some exA2.bestScore ∧ exR2.mapq1 = some exA2.mapq) := by
  refine ⟨rfl, rfl, by decide, by decide, ?_⟩
  exact C6_add_concordant flConst Dataset.new exA1 exA2 (some true) (some false)
    exR1 exR2 rfl rfl (by decide) (by decide)

/-- C7. On a successful `from_alignments` the concordant-score fields are
populated exactly when both mates expose the two concordant attributes,
and a call in which the mates report unequal values for either attribute
fails with a contract violation instead of producing a record. -/
theorem C7_concordant_fields :
    (∀ (fl : Alignment → Alignment → Option Int) (al1 al2 : Alignment)
       (r : PairedTuple),
      PairedTuple.from_alignments fl al1 al2 = some r →
      (r.bestconcsc.isSome = true ↔
        (al1.bestConcordantScore.isSome = true ∧
         al2.bestConcordantScore.isSome = true ∧
         al1.secondBestConcordantScore.isSome = true ∧
         al2.secondBestConcordantScore.isSome = true)) ∧
      (r.best2concsc.isSome = true ↔
        (al1.bestConcordantScore.isSome = true ∧
         al2.bestConcordantScore.isSome = true ∧
         al1.secondBestConcordantScore.isSome = true ∧
         al2.secondBestConcordantScore.isSome = true))) ∧
    (∀ (fl : Alignment → Alignment → Option Int) (al1 al2 : Alignment) (x y : Int),
      al1.bestConcordantScore = some x → al2.bestConcordantScore = some y →
      x ≠ y → PairedTuple.from_alignments fl al1 al2 = none) ∧
    (∀ (fl : Alignment → Alignment → Option Int) (al1 al2 : Alignment) (x u v : Int),
      al1.bestConcordantScore = some x → al2.bestConcordantScore = some x →
      al1.secondBestConcordantScore = some u →
      al2.secondBestConcordantScore = some v →
      u ≠ v → PairedTuple.from_alignments fl al1 al2 = none) := by
  refine ⟨?_, ?_, ?_⟩
  · intro fl al1 al2 r h
    obtain ⟨s1, s2, m1, m2, mx1, mx2, bc, b2c, _, _, hc, hr⟩ :=
      PairedTuple.from_alignments_inv h
    subst hr
    exact concPair_some_iff hc
  · intro fl al1 al2 x y h1 h2 hxy
    exact PairedTuple.from_alignments_none_of_concPair
      (concPair_none_of_best_ne h1 h2 hxy)
  · intro fl al1 al2 x u v h1 h2 h3 h4 huv
    exact PairedTuple.from_alignments_none_of_concPair
      (concPair_none_of_secbest_ne h1 h2 h3 h4 huv)

/-- A mate of `exA1` whose best concordant score disagrees (17 vs 18). -/
def exA2bad : Alignment :=
  { name := 2, len := 90, bestScore := 9, secondBestScore := some 4,
    mapq := 35, thirdBestScore := none, minValid := some 1, maxValid := some 19,
    bestConcordantScore := some 17, secondBestConcordantScore := some 15,
    concordant := true, discordant := false, paired := true }

/-- C7 witness: `(exA1, exA2)` succeeds with populated concordant fields
(both mates expose them), while `(exA1, exA2bad)` reports 18 vs 17 and
fails. -/
theorem C7_concordant_fields_witness :
    PairedTuple.from_alignments flConst exA1 exA2 = some exR1 ∧
    ((exR1.bestconcsc.isSome = true ↔
       (exA1.bestConcordantScore.isSome = true ∧
        exA2.bestConcordantScore.isSome = true ∧
        exA1.secondBestConcordantScore.isSome = true ∧
        exA2.secondBestConcordantScore.isSome = true)) ∧
     (exR1.best2concsc.isSome = true ↔
       (exA1.bestConcordantScore.isSome = true ∧
        exA2.bestConcordantScore.isSome = true ∧
        exA1.secondBestConcordantScore.isSome = true ∧
        exA2.secondBestConcordantScore.isSome = true))) ∧
    exA1.bestConcordantScore = some 18 ∧ exA2bad.bestConcordantScore = some 17 ∧
    (18 : Int) ≠ 17 ∧
    PairedTuple.from_alignments flConst exA1 exA2bad = none := by
  refine ⟨by decide, ?_, rfl, rfl, by decide, ?_⟩
  · exact C7_concordant_fields.1 flConst exA1 exA2 exR1 (by decide)
  · exact C7_concordant_fields.2.1 flConst exA1 exA2bad 18 17 rfl rfl (by decide)

/-- A record constructed with absent min/max valid score bounds. -/
def exTNA : UnpairedTuple :=
  { rdname := some 7, rdlen := some 100, ordlen := some 0, minv := none,
    maxv := none, bestsc := some 42, best2sc := some 30, mapq := some 37 }

/-- C8. A record with absent min/max bounds serializes the two (unpaired
shape) or four (paired shape) bound columns as the literal token `NA`, and
`load` maps the token `NA` back to the absence value — never to zero and
never to a parse error. -/
theorem C8_na_propagation :
    (∀ (t : UnpairedTuple) (lab : Option Bool), t.minv = none → t.maxv = none →
      (saveUnpairedRow t lab)[3]? = some "NA" ∧
      (saveUnpairedRow t lab)[4]? = some "NA") ∧
    (∀ (p : PairedTuple) (lab : Option Bool),
      p.minv1 = none → p.maxv1 = none → p.minv2 = none → p.maxv2 = none →
      (savePairedRow p lab)[3]? = some "NA" ∧
      (savePairedRow p lab)[4]? = some "NA" ∧
      (savePairedRow p lab)[10]? = some "NA" ∧
      (savePairedRow p lab)[11]? = some "NA") ∧
    (int_or_none "NA" = some none ∧ int_or_none "NA" ≠ some (some 0) ∧
     int_or_none "NA" ≠ none) ∧
    (∀ (t0 t1 t2 t5 t6 t7 : String) (r : UnpairedTuple) (l : Option Bool),
      parseUnpairedRow [t0, t1, t2, "NA", "NA", t5, t6, t7] = some (some (r, l)) →
      r.minv = none ∧ r.maxv = none) := by
  refine ⟨?_, ?_, ⟨rfl, by decide, by decide⟩, ?_⟩
  · intro t lab h1 h2
    simp [saveUnpairedRow, UnpairedTuple.fieldList, naStr, h1, h2]
  · intro p lab h1 h2 h3 h4
    simp [savePairedRow, PairedTuple.fieldList, naStr, h1, h2, h3, h4]
  · intro t0 t1 t2 t5 t6 t7 r l h
    simp only [parseUnpairedRow] at h
    split at h
    · injection h with h'
      exact Option.noConfusion h'
    · simp only [Option.bind_eq_bind, Option.bind_eq_some] at h
      obtain ⟨rdname, h0, best, hb, secbest, hs, minv, h3, maxv, h4, ln, h5,
        mapq, h6, oln, h7, r', hmk, hfin⟩ := h
      have hminv : minv = none := (Option.some_inj.mp h3).symm
      have hmaxv : maxv = none := (Option.some_inj.mp h4).symm
      subst hminv
      subst hmaxv
      have hr' := unpaired_make_inv hmk
      subst hr'
      injection hfin with h9
      injection h9 with h10
      injection h10 with hr hl
      subst hr
      exact ⟨rfl, rfl⟩

/-- C8 witness: `exTNA` (absent bounds) saves `NA` in columns 3 and 4, and
the concrete row with `NA` bound tokens parses back to absent bounds. -/
theorem C8_na_propagation_witness :
    (exTNA.minv = none ∧ exTNA.maxv = none ∧
     (saveUnpairedRow exTNA (some true))[3]? = some "NA" ∧
     (saveUnpairedRow exTNA (some true))[4]? = some "NA") ∧
    (parseUnpairedRow ["7", "42", "30", "NA", "NA", "100", "37", "0"] =
       some (some (exTNA, some false)) ∧
     exTNA.minv = none ∧ exTNA.maxv = none) := by
  have hsave := C8_na_propagation.1 exTNA (some true) rfl rfl
  have hparse := C8_na_propagation.2.2.2 "7" "42" "30" "100" "37" "0" exTNA
    (some false) (by decide)
  exact ⟨⟨rfl, rfl, hsave.1, hsave.2⟩, ⟨by decide, hparse⟩⟩

/-- C9 counterexample: the claim says the tabular export returns four
tables for every Dataset, the empty one included; the code raises instead
(`from_items` in `UnpairedTuple.to_data_frame` calls the tuple
`('name', names)` because of a missing comma). -/
theorem C9_counterexample : Dataset.to_data_frames Dataset.new = none := rfl

/-- C9 amended: the tabular export raises for every Dataset (the unpaired
table builder always raises `TypeError`, and the bad-end branch calls a
method that does not exist); the paired-shape builder that does run uses
column names `name_1, best1_1, best2_1, minv_1, maxv_1, rdlen_1, mapq_1,
name_2, ..., best1conc, best2conc, fraglen`, and both the paired and the
intended unpaired column-name lists differ from the header names written
by `save`. -/
theorem C9_to_tabular :
    (∀ ds : Dataset, Dataset.to_data_frames ds = none) ∧
    (∀ (pt : List UnpairedTuple) (cor : Option (List (Option Bool))),
      UnpairedTuple.to_data_frame pt cor = none) ∧
    (∀ pt : List PairedTuple,
      (PairedTuple.to_data_frames pt none).map Prod.fst =
        ["name_1", "best1_1", "best2_1", "minv_1", "maxv_1", "rdlen_1", "mapq_1",
         "name_2", "best1_2", "best2_2", "minv_2", "maxv_2", "rdlen_2", "mapq_2",
         "best1conc", "best2conc", "fraglen"]) ∧
    (∀ (pt : List PairedTuple) (labs : List (Option Bool)),
      (PairedTuple.to_data_frames pt (some labs)).map Prod.fst =
        ["name_1", "best1_1", "best2_1", "minv_1", "maxv_1", "rdlen_1", "mapq_1",
         "name_2", "best1_2", "best2_2", "minv_2", "maxv_2", "rdlen_2", "mapq_2",
         "best1conc", "best2conc", "fraglen", "correct"]) ∧
    ["name_1", "best1_1", "best2_1", "minv_1", "maxv_1", "rdlen_1", "mapq_1",
     "name_2", "best1_2", "best2_2", "minv_2", "maxv_2", "rdlen_2", "mapq_2",
     "best1conc", "best2conc", "fraglen"] ≠ pairedHeader.dropLast ∧
    unpItemCols ≠ unpHeader.dropLast :=
  ⟨fun _ => rfl, fun _ _ => rfl, fun _ => rfl, fun _ _ => rfl,
   by decide, by decide⟩

/-- A dataset with one pre-existing unpaired record, to observe appending. -/
def exDs10 : Dataset :=
  { data_unp := [exT], lab_unp := [some true], data_conc := [], lab_conc := [],
    data_disc := [], lab_disc := [], data_bad_end := [], lab_bad_end := [] }

/-- Concrete files loadable by `Dataset.load` (8-token unpaired rows,
18-token paired rows). -/
def exFiles10 : SavedFiles :=
  { unp := [["7", "42", "30", "0", "50", "100", "37", "0"]],
    conc := [["1", "10", "5", "0", "20", "100", "40", "2", "9", "4", "1",
              "19", "90", "35", "18", "15", "250", "T"]],
    disc := [], bad_end := [] }

/-- The record parsed from the single row of `exFiles10.unp`. -/
def exRec10 : UnpairedTuple :=
  { rdname := some 7, rdlen := some 100, ordlen := some 0, minv := some 0,
    maxv := some 50, bestsc := some 42, best2sc := some 30, mapq := some 37 }

/-- C10. A successful `load` appends: each collection of the result is its
pre-existing record sequence followed by the rows parsed from the
corresponding file, and likewise for the label lists. -/
theorem C10_load_appends :
    ∀ (ds : Dataset) (files : SavedFiles)
      (u b : List UnpairedTuple) (c d : List PairedTuple)
      (lu lc ld lb : List (Option Bool)),
      loadUnpairedRows files.unp = some (u, lu) →
      loadPairedRows files.conc = some (c, lc) →
      loadPairedRows files.disc = some (d, ld) →
      loadUnpairedRows files.bad_end = some (b, lb) →
      Dataset.load ds files = some
        { data_unp := ds.data_unp ++ u, lab_unp := ds.lab_unp ++ lu,
          data_conc := ds.data_conc ++ c, lab_conc := ds.lab_conc ++ lc,
          data_disc := ds.data_disc ++ d, lab_disc := ds.lab_disc ++ ld,
          data_bad_end := ds.data_bad_end ++ b,
          lab_bad_end := ds.lab_bad_end ++ lb } := by
  intro ds files u b c d lu lc ld lb h1 h2 h3 h4
  unfold Dataset.load
  rw [h1, h2, h3, h4]

/-- C10 witness: loading `exFiles10` into the nonempty `exDs10` keeps the
pre-existing records and appends the parsed rows after them. -/
theorem C10_load_appends_witness :
    loadUnpairedRows exFiles10.unp = some ([exRec10], [some false]) ∧
    loadPairedRows exFiles10.conc = some ([exR1], [some true]) ∧
    loadPairedRows exFiles10.disc = some ([], []) ∧
    loadUnpairedRows exFiles10.bad_end = some ([], []) ∧
    Dataset.load exDs10 exFiles10 = some
      { data_unp := exDs10.data_unp ++ [exRec10],
        lab_unp := exDs10.lab_unp ++ [some false],
        data_conc := exDs10.data_conc ++ [exR1],
        lab_conc := exDs10.lab_conc ++ [some true],
        data_disc := exDs10.data_disc ++ [], lab_disc := exDs10.lab_disc ++ [],
        data_bad_end := exDs10.data_bad_end ++ [],
        lab_bad_end := exDs10.lab_bad_end ++ [] } := by
  refine ⟨by decide, by decide, rfl, rfl, ?_⟩
  exact C10_load_appends exDs10 exFiles10 [exRec10] [] [exR1] [] [some false]
    [some true] [] [] (by decide) (by decide) rfl rfl

end Samples
